import Mathlib

/-!
Verification of `playground/views.py` (Django ORM demonstration functions).

The repository's only source file is a flat list of demonstration functions,
each issuing one or a few Django ORM calls against a small store schema
(products, collections, customers, orders, order items).  We give a shallow
embedding: the database is a record of lists of rows, querysets are lists,
and each ORM call used by the views (`filter`, `Q` combinators, `order_by`,
`aggregate`, `annotate`, `delete`, `transaction.atomic`, `save`) is embedded
as a pure Lean function with the library's documented relational semantics.
The view functions are then translated line by line from the source.
-/

/-- Modelled from the spec: the repository's model definitions
(`store/models.py`) are not under `src/`; the spec only says the entities
are plain records (products, orders, order items, customers, collections)
persisted by the framework.  Field names and uses are taken from
`playground/views.py`.  Prices are `Rat` (the source uses decimal fields),
ids and inventory are `Int`. -/
structure Product where
  id : Int
  title : String
  unit_price : Rat
  inventory : Int
  collection_id : Int
deriving DecidableEq, Repr

/-- Modelled from the spec: a collection row; `views.py` uses its `id` and
a nullable `featured_product` foreign key. -/
structure Collection where
  id : Int
  featured_product_id : Option Int
deriving DecidableEq, Repr

/-- Modelled from the spec: a customer row; `views.py` uses `first_name`
and `last_name`. -/
structure Customer where
  id : Int
  first_name : String
  last_name : String
deriving DecidableEq, Repr

/-- Modelled from the spec: an order row; `views.py` sets `customer_id`
and sorts by `placed_at`. -/
structure Order where
  id : Int
  customer_id : Int
  placed_at : Int
deriving DecidableEq, Repr

/-- Modelled from the spec: an order-item row; `views.py` sets `order`,
`product_id`, `quantity` and `unit_price`. -/
structure OrderItem where
  id : Int
  order_id : Int
  product_id : Int
  quantity : Int
  unit_price : Rat
deriving DecidableEq, Repr

/-- The database state: one list of rows per table of the store schema. -/
structure DB where
  products : List Product
  collections : List Collection
  customers : List Customer
  orders : List Order
  order_items : List OrderItem
deriving DecidableEq, Repr

/-! ### ORM primitives

Embeddings of the Django query-building calls used by `views.py`.
A queryset over row type `α` is a `List α`; `QuerySet.filter` keeps the rows
matching a predicate, in table order, exactly as the ORM's `filter(...)`
returns the matching rows of the table. -/

/-- `Model.objects.filter(cond)`: the rows of `l` satisfying `cond`. -/
def QuerySet.filter (cond : α → Bool) (l : List α) : List α :=
  List.filter cond l

/-- `Q(a) | Q(b)`: a row matches when either condition matches. -/
def qOr (p q : α → Bool) : α → Bool := fun x => p x || q x

/-- `Q(a) & Q(b)`: a row matches when both conditions match. -/
def qAnd (p q : α → Bool) : α → Bool := fun x => p x && q x

/-- `~Q(a)`: a row matches when the condition does not match. -/
def qNot (p : α → Bool) : α → Bool := fun x => ! p x

/-- `order_by(field)`: stable sort of the rows by a boolean comparison. -/
def order_by (le : α → α → Bool) (l : List α) : List α :=
  l.mergeSort le

/-! ### `filter_queries` (views.py lines 42-53) -/

/-- Line 50: `Product.objects.filter(title__icontains='coffee')` —
case-insensitive substring match on the title. -/
def filter_queries_icontains (db : DB) : List Product :=
  QuerySet.filter (fun p => (p.title.toLower).splitOn "coffee" ≠ [p.title.toLower]) db.products

/-- Line 53: `Product.objects.filter(inventory__lt=10).filter(unit_price__lt=20)` —
two chained filters. -/
def filter_queries_chained (db : DB) : List Product :=
  QuerySet.filter (fun p => decide (p.unit_price < 20))
    (QuerySet.filter (fun p => decide (p.inventory < 10)) db.products)

/-! ### `complex_filters` (views.py lines 57-76) -/

/-- Lines 65-67: `filter(Q(inventory__lt=10) | Q(unit_price__lt=20))`. -/
def complex_filters_or (db : DB) : List Product :=
  QuerySet.filter
    (qOr (fun p => decide (p.inventory < 10)) (fun p => decide (p.unit_price < 20)))
    db.products

/-- Lines 71-73: `filter(Q(inventory__lt=10) & ~Q(unit_price__lt=20))`. -/
def complex_filters_and_not (db : DB) : List Product :=
  QuerySet.filter
    (qAnd (fun p => decide (p.inventory < 10)) (qNot (fun p => decide (p.unit_price < 20))))
    db.products

/-- Line 76: `filter(inventory=F('unit_price'))` — compare two fields. -/
def complex_filters_f (db : DB) : List Product :=
  QuerySet.filter (fun p => decide ((p.inventory : Rat) = p.unit_price)) db.products

/-- **C2.** In `complex_filters`, the query `Q(inventory__lt=10) | Q(unit_price__lt=20)`
selects exactly the products with inventory below 10 or unit price below 20, and
`Q(inventory__lt=10) & ~Q(unit_price__lt=20)` selects exactly the products with
inventory below 10 and unit price not below 20, for every database state. -/
theorem complex_filters_correct (db : DB) (p : Product) :
    (p ∈ complex_filters_or db ↔ p ∈ db.products ∧ (p.inventory < 10 ∨ p.unit_price < 20)) ∧
    (p ∈ complex_filters_and_not db ↔
      p ∈ db.products ∧ (p.inventory < 10 ∧ ¬ p.unit_price < 20)) := by
  constructor
  · simp [complex_filters_or, QuerySet.filter, qOr, List.mem_filter, and_comm]
  · simp [complex_filters_and_not, QuerySet.filter, qAnd, qNot, List.mem_filter, and_comm]

/-- Witness for C2 at a concrete database state. -/
theorem complex_filters_correct_witness :
    let p : Product := ⟨1, "tea", 5, 3, 1⟩
    let db : DB := ⟨[p], [], [], [], []⟩
    p ∈ complex_filters_or db ↔ p ∈ db.products ∧ (p.inventory < 10 ∨ p.unit_price < 20) :=
  (complex_filters_correct ⟨[⟨1, "tea", 5, 3, 1⟩], [], [], [], []⟩ ⟨1, "tea", 5, 3, 1⟩).1

/-- **C5.** In `filter_queries`, chaining
`.filter(inventory__lt=10).filter(unit_price__lt=20)` is equivalent to a single
filter with the conjunction of the two conditions, for every database state. -/
theorem filter_queries_chained_eq_conj (db : DB) :
    filter_queries_chained db =
      QuerySet.filter (fun p => decide (p.inventory < 10 ∧ p.unit_price < 20)) db.products := by
  unfold filter_queries_chained QuerySet.filter
  rw [List.filter_filter]
  apply List.filter_congr
  intro p _
  simp [Bool.and_comm]

/-- Witness for C5 on a concrete database state. -/
theorem filter_queries_chained_eq_conj_witness :
    filter_queries_chained ⟨[⟨1, "a", 25, 3, 1⟩, ⟨2, "b", 7, 4, 1⟩], [], [], [], []⟩ =
      QuerySet.filter (fun p => decide (p.inventory < 10 ∧ p.unit_price < 20))
        [⟨1, "a", 25, 3, 1⟩, ⟨2, "b", 7, 4, 1⟩] :=
  filter_queries_chained_eq_conj ⟨[⟨1, "a", 25, 3, 1⟩, ⟨2, "b", 7, 4, 1⟩], [], [], [], []⟩

/-! ### `ordering_queries` (views.py lines 80-93)

The view runs three statements:
```
product = Product.objects.order_by('unit_price')[0]
product = Product.objects.earliest('unit_price')[0]
product = Product.objects.latest('unit_price')[0]
```
`earliest`/`latest` return a single model instance (or raise
`ObjectDoesNotExist` on an empty table); a `Product` instance defines no
`__getitem__`, so applying `[0]` to it raises `TypeError`.  We embed the
possible Python exceptions and the dynamic semantics of subscripting. -/

/-- The exceptions the embedded operations can raise. -/
inductive PyErr where
  | typeError
  | indexError
  | doesNotExist
  | integrityError
deriving DecidableEq, Repr

/-- Comparison used by `order_by('unit_price')`, `earliest('unit_price')`. -/
def priceLe (a b : Product) : Bool := decide (a.unit_price ≤ b.unit_price)

/-- Comparison used by `order_by('-unit_price')` and `latest('unit_price')`. -/
def priceGe (a b : Product) : Bool := decide (b.unit_price ≤ a.unit_price)

/-- `queryset[i]`: indexing a queryset, `IndexError` past the end. -/
def qs_getitem (l : List α) (i : Nat) : Except PyErr α :=
  match l[i]? with
  | some a => .ok a
  | none => .error .indexError

/-- `Model.objects.earliest(field)`: the first row in ascending order of the
field; `ObjectDoesNotExist` on an empty table. -/
def earliest (le : α → α → Bool) (l : List α) : Except PyErr α :=
  match (order_by le l).head? with
  | some a => .ok a
  | none => .error .doesNotExist

/-- `Model.objects.latest(field)`: the first row in descending order of the
field; `ObjectDoesNotExist` on an empty table. -/
def latest (ge : α → α → Bool) (l : List α) : Except PyErr α :=
  match (order_by ge l).head? with
  | some a => .ok a
  | none => .error .doesNotExist

/-- `instance[i]`: a `Product` model instance is not subscriptable
(it defines no `__getitem__`), so subscripting always raises `TypeError`. -/
def Product.getitem (_p : Product) (_i : Nat) : Except PyErr Product :=
  .error .typeError

/-- Line 87 of `ordering_queries`: `Product.objects.order_by('unit_price')[0]`. -/
def ordering_queries_first (db : DB) : Except PyErr Product :=
  qs_getitem (order_by priceLe db.products) 0

/-- `ordering_queries` (lines 80-93), returning `.ok ()` only if every
statement completes. -/
def ordering_queries (db : DB) : Except PyErr Unit := do
  let _product ← ordering_queries_first db
  let e ← earliest priceLe db.products
  let _product ← e.getitem 0
  let l ← latest priceGe db.products
  let _product ← l.getitem 0
  pure ()

/-- **C3.** For every database state with at least one product,
`ordering_queries` raises `TypeError` before returning: `earliest` returns a
single model instance and the code applies `[0]` to it, which is not
subscriptable.  (On an empty table the first statement raises `IndexError`
instead, so the claim's scope "even one where products exist" is the
non-vacuous one.) -/
theorem ordering_queries_raises_typeError (db : DB) (h : db.products ≠ []) :
    ordering_queries db = .error .typeError := by
  obtain ⟨p, l, hpl⟩ := List.exists_cons_of_ne_nil h
  have hne : order_by priceLe db.products ≠ [] := by
    intro hcontra
    have := List.mergeSort_perm db.products priceLe
    rw [order_by] at hcontra
    rw [hcontra] at this
    exact h (List.Perm.nil_eq this).symm
  obtain ⟨q, m, hqm⟩ := List.exists_cons_of_ne_nil hne
  rw [order_by] at hqm
  simp only [ordering_queries, ordering_queries_first, qs_getitem, earliest, order_by, hqm,
    List.getElem?_cons_zero, List.head?_cons]
  rfl

/-- Witness for C3: a one-product database raises `TypeError`. -/
theorem ordering_queries_raises_typeError_witness :
    ordering_queries ⟨[⟨1, "tea", 5, 3, 1⟩], [], [], [], []⟩ = .error .typeError :=
  ordering_queries_raises_typeError ⟨[⟨1, "tea", 5, 3, 1⟩], [], [], [], []⟩ (by simp)

/-- **C6.** In `ordering_queries`, for every database state with at least one
product, `Product.objects.order_by('unit_price')[0]` returns a product of the
database whose unit price is minimal among all products. -/
theorem ordering_queries_first_is_min (db : DB) (h : db.products ≠ []) :
    ∃ p, ordering_queries_first db = .ok p ∧ p ∈ db.products ∧
      ∀ q ∈ db.products, p.unit_price ≤ q.unit_price := by
  have hne : order_by priceLe db.products ≠ [] := by
    simp only [order_by, ne_eq]
    intro hcontra
    have := List.mergeSort_perm db.products priceLe
    rw [hcontra] at this
    exact h (List.Perm.nil_eq this).symm
  obtain ⟨p, m, hpm⟩ := List.exists_cons_of_ne_nil hne
  refine ⟨p, ?_, ?_, ?_⟩
  · simp [ordering_queries_first, qs_getitem, hpm]
  · have : p ∈ order_by priceLe db.products := by rw [hpm]; exact List.mem_cons_self p m
    simpa [order_by] using this
  · have hsorted : (order_by priceLe db.products).Pairwise (fun a b => priceLe a b = true) := by
      apply List.sorted_mergeSort
      · intro a b c hab hbc
        simp only [priceLe, decide_eq_true_eq] at hab hbc ⊢
        exact le_trans hab hbc
      · intro a b
        simp only [priceLe, Bool.or_eq_true, decide_eq_true_eq]
        exact le_total a.unit_price b.unit_price
    intro q hq
    have hq' : q ∈ order_by priceLe db.products := by simpa [order_by] using hq
    rw [hpm] at hq' hsorted
    rcases List.mem_cons.mp hq' with hqp | hqm
    · exact hqp ▸ le_refl _
    · have := (List.pairwise_cons.mp hsorted).1 q hqm
      simpa [priceLe] using this

/-- Witness for C6 at a concrete two-product database. -/
theorem ordering_queries_first_is_min_witness :
    ∃ p, ordering_queries_first ⟨[⟨1, "a", 9, 3, 1⟩, ⟨2, "b", 4, 7, 1⟩], [], [], [], []⟩ = .ok p ∧
      p ∈ [⟨1, "a", 9, 3, 1⟩, (⟨2, "b", 4, 7, 1⟩ : Product)] ∧
      ∀ q ∈ [⟨1, "a", 9, 3, 1⟩, (⟨2, "b", 4, 7, 1⟩ : Product)], p.unit_price ≤ q.unit_price :=
  ordering_queries_first_is_min ⟨[⟨1, "a", 9, 3, 1⟩, ⟨2, "b", 4, 7, 1⟩], [], [], [], []⟩ (by simp)

/-! ### `aggregation_queries` (views.py lines 138-162)

The view calls `aggregate(count=Count('id'), min_price=Min('unit_price'),
max_price=Max('unit_price'), avg_price=Avg('unit_price'),
sum_inventory=Sum('inventory'))`, first over all products, then over
`filter(collection__id=3)`.  We embed the SQL aggregate functions as
single left-to-right scans over the rows, with SQL's `NULL` results on an
empty set (`COUNT` is `0`; `MIN`, `MAX`, `AVG`, `SUM` are `NULL`) and
`AVG = SUM / COUNT`. -/

/-- SQL `COUNT(id)`: `id` is a non-null primary key, so this is the row count. -/
def aggCount (l : List α) : Nat := l.length

/-- SQL `MIN(f)`: running minimum over the rows, `NULL` on no rows. -/
def aggMin (f : α → Rat) : List α → Option Rat
  | [] => none
  | x :: xs => some (xs.foldl (fun m a => min m (f a)) (f x))

/-- SQL `MAX(f)`: running maximum over the rows, `NULL` on no rows. -/
def aggMax (f : α → Rat) : List α → Option Rat
  | [] => none
  | x :: xs => some (xs.foldl (fun m a => max m (f a)) (f x))

/-- SQL `SUM(f)`: running sum over the rows, `NULL` on no rows. -/
def aggSum (f : α → Int) : List α → Option Int
  | [] => none
  | x :: xs => some (xs.foldl (fun s a => s + f a) (f x))

/-- SQL `AVG(f)`: the running sum divided by the row count, `NULL` on no rows. -/
def aggAvg (f : α → Rat) : List α → Option Rat
  | [] => none
  | x :: xs => some (xs.foldl (fun s a => s + f a) (f x) / (xs.length + 1 : Rat))

/-- The dictionary returned by the view's `aggregate(...)` calls, with the
five keys used at lines 147-153 and 156-162. -/
structure AggResult where
  count : Nat
  min_price : Option Rat
  max_price : Option Rat
  avg_price : Option Rat
  sum_inventory : Option Int
deriving DecidableEq, Repr

/-- The five statistics the view requests, over a list of products. -/
def productStats (ps : List Product) : AggResult :=
  { count := aggCount ps
    min_price := aggMin (fun p => p.unit_price) ps
    max_price := aggMax (fun p => p.unit_price) ps
    avg_price := aggAvg (fun p => p.unit_price) ps
    sum_inventory := aggSum (fun p => p.inventory) ps }

/-- `aggregation_queries` (lines 138-162): the first `aggregate` is over all
products, the second over `filter(collection__id=3)` (the ORM compiles the
`collection__id` lookup to the product's `collection_id` foreign-key column). -/
def aggregation_queries (db : DB) : AggResult × AggResult :=
  (productStats db.products,
   productStats (QuerySet.filter (fun p => decide (p.collection_id = 3)) db.products))

/-- The statistics as the spec describes them: the count of ids, the minimum,
maximum and average of `unit_price`, and the sum of `inventory`. -/
def specStats (ps : List Product) : AggResult :=
  { count := ps.length
    min_price := (ps.map (fun p => p.unit_price)).min?
    max_price := (ps.map (fun p => p.unit_price)).max?
    avg_price := if ps = [] then none
      else some ((ps.map (fun p => p.unit_price)).sum / (ps.length : Rat))
    sum_inventory := if ps = [] then none else some ((ps.map (fun p => p.inventory)).sum) }

theorem foldl_add_eq_add_sum [AddCommMonoid β] (l : List β) (s : β) :
    l.foldl (fun a b => a + b) s = s + l.sum := by
  induction l generalizing s with
  | nil => simp
  | cons a t ih => simp [ih, add_assoc]

theorem productStats_eq_specStats (ps : List Product) : productStats ps = specStats ps := by
  cases ps with
  | nil => rfl
  | cons x xs =>
    have hsum : ∀ (f : Product → Rat),
        xs.foldl (fun s a => s + f a) (f x) = f x + (xs.map f).sum := by
      intro f
      rw [← List.foldl_map f (fun a b => a + b) xs (f x), foldl_add_eq_add_sum]
    have hsumi : xs.foldl (fun s a => s + (fun p => p.inventory) a) ((fun p => p.inventory) x)
        = x.inventory + (xs.map (fun p => p.inventory)).sum := by
      rw [← List.foldl_map (fun p => p.inventory) (fun a b => a + b) xs x.inventory,
        foldl_add_eq_add_sum]
    simp only [productStats, specStats, aggCount, aggMin, aggMax, aggSum, aggAvg,
      List.map_cons, List.min?, List.max?, List.sum_cons, List.length_cons,
      List.foldl_map, hsum, hsumi, if_neg (List.cons_ne_nil x xs)]
    push_cast
    rfl

/-- **C4.** In `aggregation_queries`, the first `aggregate` returns, over all
products, the count of ids, the minimum, maximum and average of `unit_price`,
and the sum of `inventory`; the second returns these same five statistics
computed only over the products whose collection has id 3. -/
theorem aggregation_queries_correct (db : DB) :
    aggregation_queries db =
      (specStats db.products,
       specStats (db.products.filter (fun p => decide (p.collection_id = 3)))) := by
  unfold aggregation_queries QuerySet.filter
  rw [productStats_eq_specStats, productStats_eq_specStats]

/-! ### `subquery_example` (views.py lines 108-117) -/

/-- Line 116: `OrderItem.objects.values('product_id').distinct()` — the
distinct product ids appearing in the order-items table. -/
def order_item_product_ids (db : DB) : List Int :=
  (db.order_items.map (fun oi => oi.product_id)).dedup

/-- Comparison used by `order_by('title')`. -/
def titleLe (a b : Product) : Bool := decide (a.title ≤ b.title)

/-- Lines 115-117:
`Product.objects.filter(id__in=OrderItem.objects.values('product_id').distinct()).order_by('title')`. -/
def subquery_example (db : DB) : List Product :=
  order_by titleLe
    (QuerySet.filter (fun p => decide (p.id ∈ order_item_product_ids db)) db.products)

/-- **C7.** In `subquery_example` the resulting query contains exactly the
products whose id appears as `product_id` in at least one order item, each
such product exactly once (given the primary-key invariant that product ids
are distinct), sorted ascending by title. -/
theorem subquery_example_correct (db : DB)
    (hpk : (db.products.map Product.id).Nodup) :
    (∀ p, p ∈ subquery_example db ↔
        p ∈ db.products ∧ ∃ oi ∈ db.order_items, oi.product_id = p.id) ∧
    (subquery_example db).Pairwise (fun a b => a.title ≤ b.title) ∧
    (∀ p ∈ subquery_example db, (subquery_example db).count p = 1) := by
  refine ⟨?_, ?_, ?_⟩
  · intro p
    simp only [subquery_example, order_by, List.mem_mergeSort, QuerySet.filter,
      List.mem_filter, order_item_product_ids, decide_eq_true_eq, List.mem_dedup,
      List.mem_map]
  · have h := @List.sorted_mergeSort Product titleLe
      (fun a b c hab hbc => by
        simp only [titleLe, decide_eq_true_eq] at hab hbc ⊢
        exact le_trans hab hbc)
      (fun a b => by
        simp only [titleLe, Bool.or_eq_true, decide_eq_true_eq]
        exact le_total a.title b.title)
      (QuerySet.filter (fun p => decide (p.id ∈ order_item_product_ids db)) db.products)
    rw [subquery_example, order_by]
    exact h.imp (fun hab => by simpa [titleLe] using hab)
  · intro p hp
    have hnd : (subquery_example db).Nodup := by
      have h1 : db.products.Nodup := List.Nodup.of_map _ hpk
      have h2 := List.Nodup.filter
        (fun p => decide (p.id ∈ order_item_product_ids db)) h1
      exact (List.mergeSort_perm _ titleLe).symm.nodup h2
    exact List.count_eq_one_of_mem hnd hp

/-- Witness for C7: a two-product, two-order-item database where product 1
is ordered twice and still listed once. -/
theorem subquery_example_correct_witness :
    (List.map Product.id [⟨1, "tea", 5, 3, 1⟩, (⟨2, "mug", 8, 2, 1⟩ : Product)]).Nodup ∧
    (subquery_example
      ⟨[⟨1, "tea", 5, 3, 1⟩, ⟨2, "mug", 8, 2, 1⟩], [], [], [],
       [⟨1, 1, 1, 2, 5⟩, ⟨2, 1, 1, 1, 5⟩]⟩).count ⟨1, "tea", 5, 3, 1⟩ = 1 := by
  refine ⟨by decide, ?_⟩
  refine (subquery_example_correct
    ⟨[⟨1, "tea", 5, 3, 1⟩, ⟨2, "mug", 8, 2, 1⟩], [], [], [],
     [⟨1, 1, 1, 2, 5⟩, ⟨2, 1, 1, 1, 5⟩]⟩ (by decide)).2.2 ⟨1, "tea", 5, 3, 1⟩ ?_
  exact ((subquery_example_correct
    ⟨[⟨1, "tea", 5, 3, 1⟩, ⟨2, "mug", 8, 2, 1⟩], [], [], [],
     [⟨1, 1, 1, 2, 5⟩, ⟨2, 1, 1, 1, 5⟩]⟩ (by decide)).1 _).mpr
    ⟨by decide, ⟨1, 1, 1, 2, 5⟩, by decide, by decide⟩

/-! ### `annotation_examples` (views.py lines 166-186) and
`expression_examples` (lines 190-205)

`annotate(...)` attaches a computed field to each result row; it issues a
`SELECT` only, so the database state is returned unchanged alongside the
querysets the view builds and discards. -/

/-- `queryset.annotate(name=expr)`: each row paired with its computed field. -/
def annotate (f : α → β) (l : List α) : List (α × β) :=
  l.map (fun a => (a, f a))

/-- Lines 174-186: three annotated querysets over customers —
`full_name` via `Func(F('first_name'), Value(' '), F('last_name'),
function='CONCAT')`, `full_name` via `Concat('first_name', Value(' '),
'last_name')`, and `orders_count=Count('order')` (the number of orders whose
`customer_id` is the customer's id, through the reverse foreign key). -/
def annotation_examples (db : DB) :
    DB × (List (Customer × String) × List (Customer × String) × List (Customer × Nat)) :=
  let q1 := annotate (fun c => String.join [c.first_name, " ", c.last_name]) db.customers
  let q2 := annotate (fun c => c.first_name ++ " " ++ c.last_name) db.customers
  let q3 := annotate
    (fun c => (QuerySet.filter (fun o => decide (o.customer_id = c.id)) db.orders).length)
    db.customers
  (db, q1, q2, q3)

/-- Lines 197-205: `discounted_price = ExpressionWrapper(F('unit_price') * 0.8,
output_field=DecimalField())`, annotated onto every product. -/
def expression_examples (db : DB) : DB × List (Product × Rat) :=
  let discounted_price := fun p : Product => p.unit_price * (0.8 : Rat)
  (db, annotate discounted_price db.products)

/-- **C8.** The annotations in `annotation_examples` and `expression_examples`
add per-row computed fields — `full_name` is first name, space, last name;
`orders_count` is the number of the customer's orders; `discounted_price` is
`unit_price * 0.8` — while the database state is left unchanged: annotating
writes nothing. -/
theorem annotate_computes_and_writes_nothing (db : DB) :
    (annotation_examples db).1 = db ∧
    (expression_examples db).1 = db ∧
    (annotation_examples db).2.1 =
      db.customers.map (fun c => (c, c.first_name ++ " " ++ c.last_name)) ∧
    (annotation_examples db).2.2.1 =
      db.customers.map (fun c => (c, c.first_name ++ " " ++ c.last_name)) ∧
    (annotation_examples db).2.2.2 =
      db.customers.map
        (fun c => (c, (db.orders.filter (fun o => decide (o.customer_id = c.id))).length)) ∧
    (expression_examples db).2 =
      db.products.map (fun p => (p, p.unit_price * (4 / 5 : Rat))) := by
  refine ⟨rfl, rfl, ?_, rfl, rfl, ?_⟩
  · unfold annotation_examples annotate
    simp only
    apply List.map_congr_left
    intro c _
    simp [String.join]
  · unfold expression_examples annotate
    simp only
    apply List.map_congr_left
    intro p _
    norm_num

/-! ### `delete_examples` (views.py lines 252-264) -/

/-- A bulk delete on the collections table: removes the rows matching the
condition, leaving every other row (and every other table) as it was. -/
def deleteCollectionsWhere (cond : Collection → Bool) (db : DB) : DB :=
  { db with collections := db.collections.filter (fun c => ! cond c) }

/-- `delete_examples` (lines 258-264): `Collection(pk=11).delete()` followed
by `Collection.objects.filter(id__gt=5).delete()`. -/
def delete_examples (db : DB) : DB :=
  let db1 := deleteCollectionsWhere (fun c => decide (c.id = 11)) db
  deleteCollectionsWhere (fun c => decide (c.id > 5)) db1

/-- **C9.** `Collection.objects.filter(id__gt=5).delete()` removes exactly the
collections with id greater than 5: afterwards no collection with id > 5
remains and the collections with id ≤ 5 are exactly the original ones, in
order; the same holds for the final state of `delete_examples`, whose earlier
`pk=11` delete only removes a row that id > 5 covers anyway. -/
theorem delete_examples_correct (db : DB) :
    (∀ c ∈ (deleteCollectionsWhere (fun c => decide (c.id > 5)) db).collections, c.id ≤ 5) ∧
    ((deleteCollectionsWhere (fun c => decide (c.id > 5)) db).collections =
      db.collections.filter (fun c => decide (c.id ≤ 5))) ∧
    ((delete_examples db).collections = db.collections.filter (fun c => decide (c.id ≤ 5))) := by
  refine ⟨?_, ?_, ?_⟩
  · intro c hc
    simp only [deleteCollectionsWhere, List.mem_filter, Bool.not_eq_true',
      decide_eq_false_iff_not, not_lt] at hc
    exact hc.2
  · unfold deleteCollectionsWhere
    simp only
    apply List.filter_congr
    intro c _
    by_cases h : c.id ≤ 5 <;> simp [h] <;> omega
  · unfold delete_examples deleteCollectionsWhere
    simp only [List.filter_filter]
    apply List.filter_congr
    intro c _
    by_cases h : c.id ≤ 5 <;> simp [h] <;> omega

/-! ### `transaction_example` (views.py lines 268-291)

Inside `with transaction.atomic():` the view saves a new `Order` for
customer 1 and then a new `OrderItem` with `product_id = -1`, an id chosen
in the source to be an invalid foreign key ("ID volontairement invalide").
`save` enforces the foreign-key constraints of the schema and raises
`IntegrityError` on a dangling reference; `transaction.atomic` commits the
body's writes on success and restores the entry state on any exception. -/

/-- The id the database assigns to a newly inserted row: one past the
largest id in use. -/
def nextId (ids : List Int) : Int :=
  ids.foldr (fun a b => max a b) 0 + 1

/-- `order.save()`: inserts the row if its `customer_id` references an
existing customer, otherwise raises `IntegrityError`. -/
def Order.save (db : DB) (o : Order) : Except PyErr DB :=
  if db.customers.any (fun c => decide (c.id = o.customer_id)) then
    .ok { db with orders := db.orders ++ [o] }
  else .error .integrityError

/-- `item.save()`: inserts the row if its `order_id` and `product_id`
reference existing rows, otherwise raises `IntegrityError`. -/
def OrderItem.save (db : DB) (oi : OrderItem) : Except PyErr DB :=
  if db.orders.any (fun o => decide (o.id = oi.order_id)) &&
      db.products.any (fun p => decide (p.id = oi.product_id)) then
    .ok { db with order_items := db.order_items ++ [oi] }
  else .error .integrityError

/-- `with transaction.atomic(): body` — the body's writes are kept only if
it completes; on an exception every write is rolled back and the state at
entry is restored, the exception propagating. -/
def atomic (body : DB → Except PyErr DB) (db : DB) : DB × Option PyErr :=
  match body db with
  | .ok db2 => (db2, none)
  | .error e => (db, some e)

/-- `transaction_example` (lines 268-291): inside one atomic block, save an
`Order` with `customer_id = 1`, then an `OrderItem` for that order with
`product_id = -1`, `quantity = 1`, `unit_price = 10`. -/
def transaction_example (db : DB) : DB × Option PyErr :=
  atomic
    (fun s =>
      let o : Order :=
        { id := nextId (s.orders.map (fun x => x.id)), customer_id := 1, placed_at := 0 }
      match Order.save s o with
      | .error e => .error e
      | .ok s1 =>
        let item : OrderItem :=
          { id := nextId (s1.order_items.map (fun x => x.id)), order_id := o.id,
            product_id := -1, quantity := 1, unit_price := 10 }
        OrderItem.save s1 item)
    db

theorem OrderItem.save_fails_of_no_product (db : DB) (oi : OrderItem)
    (h : ∀ p ∈ db.products, p.id ≠ oi.product_id) :
    OrderItem.save db oi = .error .integrityError := by
  rw [OrderItem.save, if_neg]
  simp only [Bool.and_eq_true, List.any_eq_true, decide_eq_true_eq, not_and]
  rintro - ⟨p, hp, hpid⟩
  exact h p hp hpid

/-- **C1.** In `transaction_example` the `Order` save and the `OrderItem`
save run in one atomic transaction: whenever no product has id `-1` (so the
order item's foreign key is invalid and its save fails), the whole
transaction rolls back — the resulting database state is exactly the initial
one, the order saved earlier in the block included, and the `IntegrityError`
propagates. -/
theorem transaction_example_rolls_back (db : DB)
    (h : ∀ p ∈ db.products, p.id ≠ -1) :
    transaction_example db = (db, some .integrityError) := by
  rw [transaction_example, atomic]
  by_cases hc : db.customers.any (fun c => decide (c.id = (1 : Int))) = true
  · simp only [Order.save, hc, if_true, OrderItem.save]
    split
    · next heq =>
      exfalso
      split at heq
      · next hcond =>
        simp only [Bool.and_eq_true, List.any_eq_true, decide_eq_true_eq] at hcond
        obtain ⟨-, p, hp, hpid⟩ := hcond
        exact h p hp hpid
      · exact Except.noConfusion heq
    · next e heq =>
      split at heq
      · next hcond =>
        exfalso
        simp only [Bool.and_eq_true, List.any_eq_true, decide_eq_true_eq] at hcond
        obtain ⟨-, p, hp, hpid⟩ := hcond
        exact h p hp hpid
      · simp only [Except.error.injEq] at heq
        rw [← heq]
  · simp only [Order.save, hc, if_false]
    rw [Bool.not_eq_true] at hc
    simp [hc]

/-- Witness for C1: a database with customer 1 and a product with id 1
(none with id `-1`) is returned unchanged with an `IntegrityError`. -/
theorem transaction_example_rolls_back_witness :
    transaction_example ⟨[⟨1, "tea", 5, 3, 1⟩], [⟨1, none⟩], [⟨1, "Ada", "Lovelace"⟩], [], []⟩ =
      (⟨[⟨1, "tea", 5, 3, 1⟩], [⟨1, none⟩], [⟨1, "Ada", "Lovelace"⟩], [], []⟩,
        some .integrityError) :=
  transaction_example_rolls_back
    ⟨[⟨1, "tea", 5, 3, 1⟩], [⟨1, none⟩], [⟨1, "Ada", "Lovelace"⟩], [], []⟩ (by decide)

/-! ### The module surface (views.py lines 17-310)

`playground/views.py` defines seventeen top-level functions.  A Python
function with no `return` statement returns `None`; the only function with
a `return` statement is `say_hello`, which takes the request and returns
the rendered `hello.html` page. -/

/-- The signature of a top-level function of `playground/views.py`: its
name, its number of parameters, and whether it returns `None`. -/
structure FunSig where
  name : String
  nArgs : Nat
  returnsNone : Bool
deriving DecidableEq, Repr

/-- The functions defined in `playground/views.py`, in source order. -/
def viewsFunctions : List FunSig :=
  [⟨"say_hello", 1, false⟩,
   ⟨"basic_queries", 0, true⟩,
   ⟨"filter_queries", 0, true⟩,
   ⟨"complex_filters", 0, true⟩,
   ⟨"ordering_queries", 0, true⟩,
   ⟨"projection_queries", 0, true⟩,
   ⟨"subquery_example", 0, true⟩,
   ⟨"query_optimization", 0, true⟩,
   ⟨"aggregation_queries", 0, true⟩,
   ⟨"annotation_examples", 0, true⟩,
   ⟨"expression_examples", 0, true⟩,
   ⟨"tagged_items_example", 0, true⟩,
   ⟨"data_access_examples", 0, true⟩,
   ⟨"update_examples", 0, true⟩,
   ⟨"delete_examples", 0, true⟩,
   ⟨"transaction_example", 0, true⟩,
   ⟨"raw_sql_example", 0, true⟩]

/-- **C10 fails as stated**: not every function of the repository takes no
arguments and returns `None` — `say_hello` takes the request and returns a
rendered page. -/
theorem viewsFunctions_not_all_noarg_none :
    ¬ (∀ f ∈ viewsFunctions, f.nArgs = 0 ∧ f.returnsNone = true) := by
  decide

/-- **C10 (amended).** Every function of the repository other than the page
view `say_hello` takes no arguments and returns `None`, never returning the
query results it constructs. -/
theorem viewsFunctions_demos_noarg_none :
    viewsFunctions.all
      (fun f => f.name == "say_hello" || (f.nArgs == 0 && f.returnsNone)) = true := by
  decide

/-- **C3 fails for the empty table**: on a database with no products,
`ordering_queries` raises `IndexError` at
`Product.objects.order_by('unit_price')[0]` — its first statement — and so
never reaches the `earliest` call that would raise `TypeError`. -/
theorem ordering_queries_empty_not_typeError :
    ordering_queries ⟨[], [], [], [], []⟩ = Except.error PyErr.indexError ∧
    ordering_queries ⟨[], [], [], [], []⟩ ≠ Except.error PyErr.typeError := by
  have h1 : ordering_queries ⟨[], [], [], [], []⟩ = Except.error PyErr.indexError := by
    simp only [ordering_queries, ordering_queries_first, order_by, List.mergeSort_nil]
    rfl
  refine ⟨h1, ?_⟩
  rw [h1]
  intro hcontra
  exact PyErr.noConfusion (Except.error.inj hcontra)
